import Mathlib

/-!
Shallow embedding of the Dozer database layer (src/dozer/db.py) and the
command-dispatch error handling (src/dozer/bot.py), with theorems settling
the specification claims about them.
-/

namespace Dozer

/-- Values stored in database columns and passed as query parameters: the
bot stores text and integer ids. -/
inductive Val
  | s (v : String)
  | i (n : Int)
deriving DecidableEq, Repr

/-- One row of a table: an association list from column name to value. -/
abbrev Row := List (String × Val)

/-- Lookup of a column in a row (first match wins, as in SQL result rows
where column names are distinct). -/
def rowGet : Row → String → Option Val
  | [], _ => none
  | kv :: rest, c => if kv.1 = c then some kv.2 else rowGet rest c

/-- A table in the store: a list of rows. -/
abbrev Table := List Row

/-- The field dictionary of a record object, in insertion order, as
`update_or_add` reads it from `self.__dict__.items()`: a field holds
`none` where the Python attribute is None. -/
abbrev RecordFields := List (String × Option Val)

/-- The `keys` list built by `update_or_add` (db.py lines 60 to 66): the
names of the fields whose value is not None, in dictionary order. -/
def nonNullKeys (fields : RecordFields) : List String :=
  (fields.filter (fun kv => kv.2.isSome)).map Prod.fst

/-- Python repr of a list of strings: the text the f-string renders for
`{self.__uniques__}` at db.py line 81, brackets and quotes included. -/
def pyListRepr (l : List String) : String :=
  "[" ++ String.intercalate ", " (l.map (fun u => "\x27" ++ u ++ "\x27")) ++ "]"

/-- The `updates` SET-clause text built by the loop of `update_or_add`
(db.py lines 67 to 76): a key listed in `__uniques__` is skipped with
`continue`; every other key appends its assignment followed by the
terminator " ;" when `keys.index(key)` is the last position of the
`keys` list, and by the separator ", " and a newline otherwise. -/
def updatesClause (uniques keys : List String) : String :=
  String.join (keys.map (fun key =>
    if key ∈ uniques then ""
    else key ++ " = EXCLUDED." ++ key ++
      (if keys.indexOf key = keys.length - 1 then " ;" else ", \n")))

/-- The statement text `update_or_add` builds and executes (db.py lines
78 to 83), reproducing the triple-quoted f-string: the table name and
the joined key list, the numbered value placeholders, the conflict
target rendered from the Python list `__uniques__` itself, and the SET
clause from the loop above. -/
def upsertStatement (tablename : String) (uniques : List String)
    (fields : RecordFields) : String :=
  "\n            INSERT INTO " ++ tablename ++ " ("
    ++ String.intercalate ", " (nonNullKeys fields)
    ++ ")\n            VALUES("
    ++ String.intercalate "," ((List.range (nonNullKeys fields).length).map
        (fun i => "$" ++ toString (i + 1)))
    ++ ") \n            ON CONFLICT (" ++ pyListRepr uniques
    ++ ") DO UPDATE\n            SET " ++ updatesClause uniques (nonNullKeys fields)
    ++ "\n            "

/-- `DatabaseTable.get_by_attribute` (db.py lines 98 to 104): executes
`SELECT * FROM t WHERE $1 = $2` with parameters `(column_name, obj_id)`.
The placeholders are value parameters, not identifiers: PostgreSQL
resolves the untyped comparison of the two parameters at text type, so
an integer `obj_id` fails to bind and the driver raises before anything
executes (modelled as an error), while a string `obj_id` executes a
row-independent comparison of the column-name text with the value text:
every row passes when the two are equal and none otherwise. No row of
the table ever has its column consulted. -/
def get_by_attribute (table : Table) (obj_id : Val) (column_name : String) :
    Except Unit (List Row) :=
  match obj_id with
  | Val.i _ => Except.error ()
  | Val.s v => Except.ok (table.filter (fun _r => column_name == v))

/-- `DatabaseTable.get_by_id` (db.py lines 106 to 110): awaits
`get_by_attribute(obj_id, "id")` but has no return statement, so when
the fetch succeeds the Python coroutine returns None; an exception
raised by the fetch propagates. -/
def get_by_id (table : Table) (obj_id : Val) : Except Unit (Option (List Row)) :=
  match get_by_attribute table obj_id "id" with
  | Except.error e => Except.error e
  | Except.ok _ => Except.ok none

/-- `DatabaseTable.get_by_guild` (db.py lines 112 to 115): returns the
result of `get_by_attribute` with the default column name, propagating
any fetch error. -/
def get_by_guild (table : Table) (guild_id : Val)
    (guild_column_name : String) : Except Unit (Option (List Row)) :=
  match get_by_attribute table guild_id guild_column_name with
  | Except.error e => Except.error e
  | Except.ok rs => Except.ok (some rs)

/-- `DatabaseTable.get_by_channel` (db.py lines 117 to 120). -/
def get_by_channel (table : Table) (channel_id : Val)
    (channel_column_name : String) : Except Unit (Option (List Row)) :=
  match get_by_attribute table channel_id channel_column_name with
  | Except.error e => Except.error e
  | Except.ok rs => Except.ok (some rs)

/-- `DatabaseTable.get_by_user` (db.py lines 122 to 125). -/
def get_by_user (table : Table) (user_id : Val)
    (user_column_name : String) : Except Unit (Option (List Row)) :=
  match get_by_attribute table user_id user_column_name with
  | Except.error e => Except.error e
  | Except.ok rs => Except.ok (some rs)

/-- `DatabaseTable.get_by_role` (db.py lines 127 to 130). -/
def get_by_role (table : Table) (role_id : Val)
    (role_column_name : String) : Except Unit (Option (List Row)) :=
  match get_by_attribute table role_id role_column_name with
  | Except.error e => Except.error e
  | Except.ok rs => Except.ok (some rs)

/-- `DatabaseTable.delete` (db.py lines 138 to 150): builds
`DELETE FROM t WHERE $1 = $2 AND $3 = $4 ...` with the condition tuples
flattened into the parameter list. With an empty condition list the
statement still names the placeholders $1 and $2 but zero parameters are
supplied, so the driver rejects the call before anything executes
(modelled as an error). Otherwise each comparison is between a
column-name parameter and a value parameter, so the WHERE predicate is
row-independent: it deletes every row when all pairs compare equal as
values, and no row otherwise. -/
def delete (table : Table) (conds : List (String × Val)) : Except Unit Table :=
  if conds.isEmpty then Except.error ()
  else Except.ok (table.filter (fun _r => ¬ conds.all (fun c => Val.s c.1 == c.2)))

/-! ### Migration runner (db.py lines 14 to 38) -/

/-- Python `range(a, b)` as a list. -/
def pyRange (a b : Nat) : List Nat := List.range' a (b - a)

/-- The migration step indices `db_migrate` runs for a table whose stored
version is `v` when `n = len(cls.__versions__)` (db.py line 34):
`range(int(version["version_num"]) + 1, len(cls.__versions__) - 2)`. -/
def migrationStepsRun (v n : Nat) : List Nat := pyRange (v + 1) (n - 2)

/-- The slice of database state that `db_migrate` observes and changes
for one registered table class. -/
structure MigState where
  tableExists : Bool
  versionRow : Option Nat
  appliedSteps : List Nat
  initialCreates : Nat
  initialMigrates : Nat
deriving DecidableEq, Repr

/-- `ConfigCache.set_initial_version` (db.py lines 189 to 192): inserts
`(table_name, 0)` into the versions table. Defined in the source but
never called by `db_migrate`. -/
def set_initial_version (s : MigState) : MigState :=
  { s with versionRow := some 0 }

/-- `db_migrate` (db.py lines 14 to 38) restricted to one table class
with `n` entries in `__versions__`: if the table is absent, call
`initial_create`; if present without a versions row, call
`initial_migrate` (a no-op in the base class); if present at a stored
version below `n`, run the steps `range(v + 1, n - 2)`. No branch writes
the versions table. -/
def db_migrate (n : Nat) (s : MigState) : MigState :=
  if s.tableExists then
    match s.versionRow with
    | none => { s with initialMigrates := s.initialMigrates + 1 }
    | some v =>
      if v < n then { s with appliedSteps := s.appliedSteps ++ migrationStepsRun v n }
      else s
  else
    { s with tableExists := true, initialCreates := s.initialCreates + 1 }

/-! ### ConfigCache (db.py lines 153 to 192) -/

/-- An element of a Python tuple used as a key of `ConfigCache.cache`: a
bare value (an element of `*args`, as hashed by `query_one` and
`query_all`) or a (name, value) pair (an element of the tuple built by
`_hash_dict`). A bare value never compares equal to a pair. -/
inductive KElem
  | v (x : Val)
  | kv (k : String) (x : Val)
deriving DecidableEq, Repr

/-- A cache key: a Python tuple of key elements. -/
abbrev CacheKey := List KElem

/-- A value stored in `ConfigCache.cache`: a single record (the first
fetched row), Python None recorded after a fetch that returned no rows,
or the full list stored by `query_all`. -/
inductive CVal
  | one (r : Row)
  | absent
  | all (rs : List Row)
deriving DecidableEq, Repr

/-- The cache dictionary. -/
abbrev Cache := List (CacheKey × CVal)

/-- Dictionary lookup (`query_hash in self.cache` and
`self.cache[query_hash]`). -/
def dictGet : Cache → CacheKey → Option CVal
  | [], _ => none
  | e :: rest, k => if e.1 = k then some e.2 else dictGet rest k

/-- Dictionary assignment (`self.cache[query_hash] = ...`): replace the
entry when the key is present, else append it. -/
def dictSet (c : Cache) (k : CacheKey) (v : CVal) : Cache :=
  if (dictGet c k).isSome then
    c.map (fun e => if e.1 = k then (e.1, v) else e)
  else
    c ++ [(k, v)]

/-- Dictionary deletion (`del self.cache[query_hash]`). -/
def dictDel (c : Cache) (k : CacheKey) : Cache :=
  c.filter (fun e => decide (e.1 ≠ k))

/-- `ConfigCache._hash_dict` (db.py lines 159 to 163):
`tuple((k, dic[k]) for k in sorted(dic))`, the dictionary keys sorted
and paired with their values. The incoming dictionary is modelled as its
items in insertion order. -/
def hash_dict (dic : List (String × Val)) : CacheKey :=
  (List.insertionSort (fun a b => a ≤ b) (dic.map Prod.fst)).map
    (fun k => KElem.kv k ((rowGet dic k).getD (Val.i 0)))

/-- `ConfigCache.query_one` (db.py lines 165 to 174): the cache key is
the tuple of positional arguments; on a key already present the function
body ends without reaching a return statement, so the call returns
Python None and leaves the cache unchanged; on a miss it fetches through
the table object (`fetch` stands for `self.table.get_by_attribute`),
stores the first row, or None when the fetch was empty, and returns the
stored entry. The first component is the Python return value, the
second the cache afterwards. -/
def query_one (fetch : Val → String → List Row) (c : Cache)
    (args : List Val) (obj_id : Val) (column_name : String) :
    Option Row × Cache :=
  let qh : CacheKey := args.map KElem.v
  if (dictGet c qh).isSome then (none, c)
  else
    match fetch obj_id column_name with
    | [] => (none, dictSet c qh CVal.absent)
    | r :: _ => (some r, dictSet c qh (CVal.one r))

/-- `ConfigCache.query_all` (db.py lines 176 to 181): keyed by the
positional arguments; on a miss stores the full fetch (`fetchAll`
stands for `self.table.get_all`), and in every case returns the cache
entry. -/
def query_all (fetchAll : List Row) (c : Cache) (args : List Val) :
    Option CVal × Cache :=
  let qh : CacheKey := args.map KElem.v
  if (dictGet c qh).isSome then (dictGet c qh, c)
  else (some (CVal.all fetchAll), dictSet c qh (CVal.all fetchAll))

/-- `ConfigCache.invalidate_entry` (db.py lines 183 to 187): removes the
entry keyed by `_hash_dict(kwargs)` when it is present. -/
def invalidate_entry (c : Cache) (kwargs : List (String × Val)) : Cache :=
  let qh := hash_dict kwargs
  if (dictGet c qh).isSome then dictDel c qh else c

/-! ### Bot dispatch and error handling (src/dozer/bot.py) -/

/-- The discord command-error classes that `on_command_error`
distinguishes with its isinstance chain. `invalidContext` is the
CheckFailure subclass raised by the global check; it is not an instance
of any of the other listed classes. -/
inductive CmdError
  | noPrivateMessage
  | userInputError
  | notOwner
  | missingPermissions
  | botMissingPermissions
  | commandOnCooldown
  | commandNotFound
  | invalidContext (msg : String)
  | other (msg : String)
deriving DecidableEq, Repr

/-- What an error handler run does towards the channel: send a reply or
stay silent. -/
inductive ErrorAction
  | send (msg : String)
  | silent
deriving DecidableEq, Repr

/-- `Dozer.on_command_error` (bot.py lines 68 to 96): each isinstance
branch in order. Every branch sends a formatted reply except the branch
for CommandNotFound and InvalidContext, which passes silently. Message
texts are abbreviated to the fixed part of the format string. -/
def on_command_error (err : CmdError) : ErrorAction :=
  match err with
  | CmdError.noPrivateMessage => ErrorAction.send "This command cannot be used in DMs."
  | CmdError.userInputError => ErrorAction.send "user input error"
  | CmdError.notOwner => ErrorAction.send "not owner"
  | CmdError.missingPermissions => ErrorAction.send "you need permissions to run this command!"
  | CmdError.botMissingPermissions => ErrorAction.send "I need permissions to run this command!"
  | CmdError.commandOnCooldown => ErrorAction.send "That command is on cooldown!"
  | CmdError.commandNotFound => ErrorAction.silent
  | CmdError.invalidContext _ => ErrorAction.silent
  | CmdError.other m => ErrorAction.send m

/-- The part of a command context that the global check reads. -/
structure Ctx where
  author_bot : Bool
deriving DecidableEq, Repr

/-- `Dozer.global_checks` (bot.py lines 108 to 114): raises
InvalidContext for a bot author, then for an exceeded global rate limit
(`rateLimited` stands for `update_rate_limit()` returning a truthy
retry value), else passes. -/
def global_checks (ctx : Ctx) (rateLimited : Bool) : Except CmdError Bool :=
  if ctx.author_bot then Except.error (CmdError.invalidContext "Bots cannot run commands!")
  else if rateLimited then Except.error (CmdError.invalidContext "Global rate-limit exceeded!")
  else Except.ok true

/-- Outcome of dispatching a message that parses to a command: either
the command body ran, or a raised check failure was routed to
`on_command_error` and produced the given action. -/
inductive Outcome
  | ran
  | errorHandled (a : ErrorAction)
deriving DecidableEq, Repr

/-- Command dispatch as the framework runs it: the registered global
check runs before the command; a check exception prevents execution and
is passed to `on_command_error`. -/
def dispatch (ctx : Ctx) (rateLimited : Bool) : Outcome :=
  match global_checks ctx rateLimited with
  | Except.error e => Outcome.errorHandled (on_command_error e)
  | Except.ok _ => Outcome.ran

/-! ### Theorems for claims about the table layer and the migration runner -/

/-- Claim C1: `update_or_add` is claimed to merge non-null fields into
an existing row, or insert a new row, for every record. The statement
the code builds can never do either: the f-string interpolates the
Python list `__uniques__` itself into the conflict target, rendering
bracket and quote characters that are not a valid SQL column list, so
PostgreSQL rejects the statement with a syntax error and the execute
call raises without inserting or merging — the first conjunct shows the
full statement rendered at the AFK-status example record. The SET loop
has two further slips, shown on the same embedding: when the last
non-None key is unique, the skipped final iteration leaves the clause
ending in a dangling comma separator instead of the terminator, and a
record whose only non-None key is unique renders an empty SET clause,
both also invalid SQL. -/
theorem C1_upsert_statement_malformed :
    upsertStatement "afk_status" ["user_id"]
        [("user_id", some (Val.i 7)), ("reason", some (Val.s "meeting"))]
      = "\n            INSERT INTO afk_status (user_id, reason)\n            VALUES($1,$2) \n            ON CONFLICT ([\x27user_id\x27]) DO UPDATE\n            SET reason = EXCLUDED.reason ;\n            " ∧
    updatesClause ["user_id"]
        (nonNullKeys [("reason", some (Val.s "meeting")), ("user_id", some (Val.i 7))])
      = "reason = EXCLUDED.reason, \n" ∧
    updatesClause ["user_id"] (nonNullKeys [("user_id", some (Val.i 7))]) = "" := by
  exact ⟨rfl, rfl, rfl⟩

/-- Claim C2: the migration runner at stored version 2 with 5 defined
steps is claimed to apply exactly steps 3, 4, 5 and end at version 5.
The code computes `range(2 + 1, 5 - 2) = range(3, 3)`, which is empty,
and never updates the versions table, so it applies no step at all and
the stored version remains 2. -/
theorem C2_migration_off_by_one :
    migrationStepsRun 2 5 = [] ∧
    (db_migrate 5 ⟨true, some 2, [], 0, 0⟩).appliedSteps = [] ∧
    (db_migrate 5 ⟨true, some 2, [], 0, 0⟩).versionRow = some 2 := by
  decide

/-- Claim C6: `get_by_attribute` is claimed to return exactly the rows
whose named column equals the given value. On a table holding the single
row (user_id = 7, reason = "meeting"), querying column user_id for the
integer 7 makes the driver raise before execution (the untyped
parameter comparison binds both parameters as text, so the integer
fails to encode), and querying column reason for the string "meeting"
returns no rows (the clause compares the text "reason" with the text
"meeting", never the column). Either way the matching row is never
returned. -/
theorem C6_get_by_attribute_ignores_column :
    rowGet [("user_id", Val.i 7), ("reason", Val.s "meeting")] "user_id" = some (Val.i 7) ∧
    get_by_attribute [[("user_id", Val.i 7), ("reason", Val.s "meeting")]]
      (Val.i 7) "user_id" = Except.error () ∧
    rowGet [("user_id", Val.i 7), ("reason", Val.s "meeting")] "reason"
      = some (Val.s "meeting") ∧
    get_by_attribute [[("user_id", Val.i 7), ("reason", Val.s "meeting")]]
      (Val.s "meeting") "reason" = Except.ok [] := by
  exact ⟨rfl, rfl, rfl, rfl⟩

/-- Claim C7: `delete` with an empty condition list is indeed refused
(the statement names two placeholders but receives zero parameters), but
with the condition `reason = "meeting"` on a table whose single row has
`reason = "meeting"` it deletes nothing: the WHERE clause compares the
parameter string "reason" to the parameter string "meeting", never the
column, so the matching row survives. -/
theorem C7_delete_predicate_row_independent :
    delete [[("user_id", Val.i 7), ("reason", Val.s "meeting")]] [] = Except.error () ∧
    rowGet [("user_id", Val.i 7), ("reason", Val.s "meeting")] "reason"
      = some (Val.s "meeting") ∧
    delete [[("user_id", Val.i 7), ("reason", Val.s "meeting")]]
      [("reason", Val.s "meeting")]
      = Except.ok [[("user_id", Val.i 7), ("reason", Val.s "meeting")]] := by
  exact ⟨rfl, rfl, rfl⟩

/-- Claim C8: a run of the migration runner on a fresh store is claimed
to perform the initial create and record the baseline version number,
with a second run changing nothing. The code does call `initial_create`,
but no branch of `db_migrate` ever calls `set_initial_version` or writes
the versions table, so the versions row stays absent; the second run
therefore takes the missing-version branch and calls `initial_migrate`
again instead of finding a recorded version. -/
theorem C8_initial_version_not_recorded :
    (db_migrate 5 ⟨false, none, [], 0, 0⟩).initialCreates = 1 ∧
    (db_migrate 5 ⟨false, none, [], 0, 0⟩).versionRow = none ∧
    (db_migrate 5 (db_migrate 5 ⟨false, none, [], 0, 0⟩)).initialMigrates = 1 ∧
    set_initial_version (db_migrate 5 ⟨false, none, [], 0, 0⟩)
      ≠ db_migrate 5 ⟨false, none, [], 0, 0⟩ := by
  decide

/-- Claim C9, counterexample to the claim as stated: `get_by_id` does
not return None for every obj_id. For the integer id 7 the fetch inside
it raises (the untyped parameter comparison binds both parameters as
text, and the driver cannot encode the integer), and that exception
propagates out of `get_by_id` instead of a None return. -/
theorem C9_get_by_id_raises_on_int_id :
    get_by_id [] (Val.i 7) = Except.error () ∧
    get_by_id [] (Val.i 7) ≠ Except.ok none := by
  refine ⟨rfl, fun h => ?_⟩
  simp [get_by_id, get_by_attribute] at h

/-- Claim C9 as amended: on every input the driver can bind (a string
obj_id), `get_by_id` awaits the fetch and returns None, never the
fetched result; for an integer obj_id the fetch raises and `get_by_id`
propagates the error. The guild, channel, user and role wrappers return
the result of `get_by_attribute` with their default column names,
propagating the same error when the fetch raises. -/
theorem C9_get_by_id_returns_none (table : Table) (v : String) (n : Int) (obj : Val) :
    get_by_id table (Val.s v) = Except.ok none ∧
    get_by_id table (Val.i n) = Except.error () ∧
    get_by_guild table obj "guild_id"
      = (get_by_attribute table obj "guild_id").map some ∧
    get_by_channel table obj "channel_id"
      = (get_by_attribute table obj "channel_id").map some ∧
    get_by_user table obj "user_id"
      = (get_by_attribute table obj "user_id").map some ∧
    get_by_role table obj "role_id"
      = (get_by_attribute table obj "role_id").map some := by
  refine ⟨rfl, rfl, ?_, ?_, ?_, ?_⟩ <;>
    cases h : get_by_attribute table obj _ <;>
      simp [get_by_guild, get_by_channel, get_by_user, get_by_role, Except.map, h]

/-- Claim C3: `query_one` is claimed to return the cached value on a
hit. A first call on an empty cache fetches the row, stores it, and
returns it; but a second call with the same positional arguments finds
the key present and falls off the end of the function, returning Python
None instead of the cached record. -/
theorem C3_query_one_hit_returns_none :
    (query_one (fun _ _ => [[("user_id", Val.i 7), ("reason", Val.s "meeting")]])
        [] [] (Val.i 7) "user_id").1
      = some [("user_id", Val.i 7), ("reason", Val.s "meeting")] ∧
    dictGet (query_one (fun _ _ => [[("user_id", Val.i 7), ("reason", Val.s "meeting")]])
        [] [] (Val.i 7) "user_id").2 []
      = some (CVal.one [("user_id", Val.i 7), ("reason", Val.s "meeting")]) ∧
    (query_one (fun _ _ => [[("user_id", Val.i 7), ("reason", Val.s "meeting")]])
        (query_one (fun _ _ => [[("user_id", Val.i 7), ("reason", Val.s "meeting")]])
          [] [] (Val.i 7) "user_id").2
        [] (Val.i 7) "user_id").1
      = none := by
  exact ⟨rfl, rfl, rfl⟩

/-- Claim C4: after `invalidate_entry` the next query with the same
canonical parameters is claimed to reach the store. The cache below
holds the entry produced by an earlier `query_one` call, keyed by the
empty positional-argument tuple; `invalidate_entry` with the matching
keyword parameters removes only the key built by `_hash_dict`, which no
query ever uses, so the cache is unchanged, and the next `query_one`
call takes the hit branch: it ignores the store (which now holds a
changed row) and the cache still carries the stale entry. -/
theorem C4_invalidate_key_mismatch :
    invalidate_entry [([], CVal.one [("user_id", Val.i 7), ("reason", Val.s "lunch")])]
        [("user_id", Val.i 7)]
      = [([], CVal.one [("user_id", Val.i 7), ("reason", Val.s "lunch")])] ∧
    query_one (fun _ _ => [[("user_id", Val.i 7), ("reason", Val.s "meeting")]])
        [([], CVal.one [("user_id", Val.i 7), ("reason", Val.s "lunch")])]
        [] (Val.i 7) "user_id"
      = (none, [([], CVal.one [("user_id", Val.i 7), ("reason", Val.s "lunch")])]) := by
  exact ⟨rfl, rfl⟩

/-- Lookup in an association list with distinct keys is invariant under
permutation of the entries. -/
theorem rowGet_eq_of_perm {d1 d2 : List (String × Val)} (hperm : d1.Perm d2) :
    (d1.map Prod.fst).Nodup → ∀ k, rowGet d1 k = rowGet d2 k := by
  induction hperm with
  | nil => intro _ _; rfl
  | cons x h ih =>
      intro hnd k
      simp only [List.map_cons, List.nodup_cons] at hnd
      simp only [rowGet]
      by_cases hx : x.1 = k
      · simp [hx]
      · simp only [hx, if_false]
        exact ih hnd.2 k
  | swap x y l =>
      intro hnd k
      simp only [List.map_cons, List.nodup_cons, List.mem_cons] at hnd
      have hxy : y.1 ≠ x.1 := fun he => hnd.1 (Or.inl he)
      simp only [rowGet]
      by_cases hy : y.1 = k
      · have hx : ¬ x.1 = k := fun hxk => hxy (hy.trans hxk.symm)
        simp [hy, hx]
      · by_cases hx : x.1 = k <;> simp [hy, hx]
  | trans h1 h2 ih1 ih2 =>
      intro hnd k
      have hnd2 := (h1.map Prod.fst).nodup hnd
      exact (ih1 hnd k).trans (ih2 hnd2 k)

/-- Claim C5: cache-key canonicalization is order-independent. Two
parameter dictionaries holding the same entries in different insertion
orders (permutations with distinct keys) are mapped by `_hash_dict` to
the same canonical key, and therefore address the same cache entry. -/
theorem C5_hash_dict_order_independent (d1 d2 : List (String × Val))
    (hperm : d1.Perm d2) (hnd : (d1.map Prod.fst).Nodup) :
    hash_dict d1 = hash_dict d2 ∧
    ∀ c : Cache, dictGet c (hash_dict d1) = dictGet c (hash_dict d2) := by
  have hkeys : (d1.map Prod.fst).Perm (d2.map Prod.fst) := hperm.map Prod.fst
  have hsorteq : List.insertionSort (fun a b => a ≤ b) (d1.map Prod.fst)
      = List.insertionSort (fun a b => a ≤ b) (d2.map Prod.fst) :=
    List.eq_of_perm_of_sorted
      (((List.perm_insertionSort (fun a b => a ≤ b) (d1.map Prod.fst)).trans hkeys).trans
        (List.perm_insertionSort (fun a b => a ≤ b) (d2.map Prod.fst)).symm)
      (List.sorted_insertionSort (fun a b => a ≤ b) (d1.map Prod.fst))
      (List.sorted_insertionSort (fun a b => a ≤ b) (d2.map Prod.fst))
  have h1 : hash_dict d1 = hash_dict d2 := by
    unfold hash_dict
    rw [hsorteq]
    exact List.map_congr_left (fun k _ => by rw [rowGet_eq_of_perm hperm hnd k])
  exact ⟨h1, fun c => by rw [h1]⟩

/-- Concrete instance of claim C5: the dictionaries (a = 1, b = 2) and
(b = 2, a = 1) produce the same canonical key. -/
theorem C5_hash_dict_order_independent_witness :
    (([("a", Val.i 1), ("b", Val.i 2)] : List (String × Val)).Perm
        [("b", Val.i 2), ("a", Val.i 1)] ∧
      (([("a", Val.i 1), ("b", Val.i 2)] : List (String × Val)).map Prod.fst).Nodup) ∧
    (hash_dict [("a", Val.i 1), ("b", Val.i 2)]
        = hash_dict [("b", Val.i 2), ("a", Val.i 1)] ∧
      ∀ c : Cache, dictGet c (hash_dict [("a", Val.i 1), ("b", Val.i 2)])
        = dictGet c (hash_dict [("b", Val.i 2), ("a", Val.i 1)])) :=
  ⟨⟨List.Perm.swap ("b", Val.i 2) ("a", Val.i 1) [], by decide⟩,
    C5_hash_dict_order_independent _ _
      (List.Perm.swap ("b", Val.i 2) ("a", Val.i 1) []) (by decide)⟩

/-- Claim C10: a message authored by a bot account never executes a
command and never produces an error reply: the global check raises
InvalidContext for every bot author, dispatch routes the failure to
`on_command_error`, and the branch for CommandNotFound and
InvalidContext passes silently. -/
theorem C10_bot_message_silent (ctx : Ctx) (rateLimited : Bool)
    (h : ctx.author_bot = true) :
    dispatch ctx rateLimited = Outcome.errorHandled ErrorAction.silent ∧
    on_command_error CmdError.commandNotFound = ErrorAction.silent ∧
    (∀ m : String, on_command_error (CmdError.invalidContext m) = ErrorAction.silent) := by
  refine ⟨?_, rfl, fun m => rfl⟩
  simp [dispatch, global_checks, h, on_command_error]

/-- Concrete instance of claim C10 for a bot-authored message with the
rate limit untouched. -/
theorem C10_bot_message_silent_witness :
    (Ctx.mk true).author_bot = true ∧
    (dispatch (Ctx.mk true) false = Outcome.errorHandled ErrorAction.silent ∧
      on_command_error CmdError.commandNotFound = ErrorAction.silent ∧
      (∀ m : String, on_command_error (CmdError.invalidContext m) = ErrorAction.silent)) :=
  ⟨rfl, C10_bot_message_silent (Ctx.mk true) false rfl⟩

end Dozer
